import Mathlib

/-!
Verification of the celo-oracle transaction submission and retry engine
(`src/reporters/transaction_manager/send_with_retries.ts` and
`src/reporters/transaction_manager/send.ts`), against the natural-language
specification. The implementation files of the transaction manager are not
part of the provided sources (only their unit tests are), so the engine is
modelled from the specification, with the unit tests
(`src/test/reporters/transaction_manager.test.ts`) fixing the concrete
interface: the retry scheduler invokes the sender with four arguments
`(tx, gasPrice, oracleAccount, metricAction)`, and the sender computes the
gas limit from the connection's configured inflation factor.
-/

namespace CeloOracle

/-- Modelled from the spec: `TransactionManagerConfig` (spec section 3 and the
config contract of section 6). `BigNumber` decimals are embedded as `Rat`;
the account address as a `String`. The implementation file defining this
record (`src/app.ts`) is not among the provided sources. -/
structure TransactionManagerConfig where
  gasPriceMultiplier : Rat
  transactionRetryLimit : Nat
  transactionRetryGasPriceMultiplier : Rat
  oracleAccount : String

/-- Modelled from the spec: the gas-price escalation step of the Retry
Scheduler (spec section 4.3): `gasPrice + floor(gasPrice × multiplier)`.
Gas prices are non-negative integers; by the config contract the multiplier
is a non-negative decimal, so the floor is non-negative and `Int.toNat` is
exact. -/
def nextGasPrice (mult : Rat) (g : Nat) : Nat :=
  g + (⌊mult * (g : Rat)⌋).toNat

/-- One invocation of the Transaction Sender as performed by the Retry
Scheduler: the arguments supplied to `send`. The scheduler passes exactly
four arguments — transaction, gas price, from-address and the
instrumentation hook — leaving the sender's fifth `fallbackGas` parameter
unsupplied, which is recorded as `none`. -/
structure SendCall (T H : Type) where
  tx : T
  gasPrice : Nat
  fromAddress : String
  metricAction : H
  fallbackGas : Option Nat
  deriving DecidableEq

/-- Modelled from the spec: the loop of the Retry Scheduler (spec section
4.3). `retriesLeft` is the number of retries still allowed after the current
attempt, `k` the current attempt index, `g` the current gas price. The
outcome of each sender attempt is abstracted by the oracle `attempts`,
mapping the attempt index to that attempt's result (the unit tests mock the
sender exactly this way). Returns the engine's result together with the
ordered list of sender invocations performed. -/
def retryLoop (tx : T) (acct : String) (hook : H) (mult : Rat)
    (attempts : Nat → Except E R) :
    Nat → Nat → Nat → Except E R × List (SendCall T H)
  | 0, k, g => (attempts k, [⟨tx, g, acct, hook, none⟩])
  | retriesLeft + 1, k, g =>
    match attempts k with
    | Except.ok r => (Except.ok r, [⟨tx, g, acct, hook, none⟩])
    | Except.error _ =>
      let rest := retryLoop tx acct hook mult attempts retriesLeft (k + 1)
        (nextGasPrice mult g)
      (rest.1, ⟨tx, g, acct, hook, none⟩ :: rest.2)

/-- Modelled from the spec: the engine's single exposed operation
`sendWithRetries(tx, initialGasPrice, config, metricWrap)` (spec sections
4.3 and 6). The first component is the externally observed result (receipt
or last error); the second is the ordered trace of Transaction Sender
invocations. -/
def sendWithRetries (tx : T) (initialGasPrice : Nat)
    (config : TransactionManagerConfig) (metricWrap : H)
    (attempts : Nat → Except E R) : Except E R × List (SendCall T H) :=
  retryLoop tx config.oracleAccount metricWrap
    config.transactionRetryGasPriceMultiplier attempts
    config.transactionRetryLimit 0 initialGasPrice

/-- Modelled from the spec: the Transaction Request boundary (spec sections
3 and 6): `estimateGas()` resolves to a gas amount or fails, `call()` is a
read-only dry run that succeeds or fails. -/
structure TxRequest (E : Type) where
  estimateGas : Except E Nat
  dryRunCall : Except E Unit

/-- The connection's configuration, holding the gas inflation factor used by
contractkit when turning a gas estimate into a gas limit (the unit tests
read it as `connection.config.gasInflationFactor`). -/
structure ConnectionConfig where
  gasInflationFactor : Rat

/-- The parameters of one actual transaction submission: `{from, gas,
gasPrice}` (spec section 4.2 step 2). `gas = none` records a submission with
no gas limit supplied. -/
structure SubmittedParams where
  fromAddress : String
  gas : Option Nat
  gasPrice : Nat
  deriving DecidableEq

/-- Modelled from the spec: the Gas Estimator (spec section 4.1). On a
successful dynamic estimate `e` the gas limit is `floor(e × inflation)`; on
a failed estimate, a successful dry-run call yields the fallback gas
verbatim, while a failed dry-run call propagates the original estimation
failure. -/
def estimate (tx : TxRequest E) (inflationFactor : Rat)
    (fallbackGas : Option Nat) : Except E (Option Nat) :=
  match tx.estimateGas with
  | Except.ok e =>
    Except.ok (some (⌊inflationFactor * (e : Rat)⌋).toNat)
  | Except.error err =>
    match tx.dryRunCall with
    | Except.ok _ => Except.ok fallbackGas
    | Except.error _ => Except.error err

/-- Modelled from the spec: the Transaction Sender (spec section 4.2). Gas
limit resolution uses the connection's configured inflation factor; on
estimator failure nothing is submitted and the error propagates; otherwise
the transaction is submitted once with `{from, gas, gasPrice}`. The actual
broadcast is abstracted by `submit`; the instrumentation hook is required by
the spec (section 6) to return the wrapped operation's outcome unchanged,
so it is elided from the model. Returns the result together with the list
of submissions performed. -/
def send (conn : ConnectionConfig) (submit : SubmittedParams → Except E R)
    (tx : TxRequest E) (gasPrice : Nat) (fromAddress : String)
    (fallbackGas : Option Nat) : Except E R × List SubmittedParams :=
  match estimate tx conn.gasInflationFactor fallbackGas with
  | Except.error err => (Except.error err, [])
  | Except.ok gl => (submit ⟨fromAddress, gl, gasPrice⟩, [⟨fromAddress, gl, gasPrice⟩])

/-- The mock oracle account address used by the unit tests. -/
def mockOracleAccount : String := "0x086bb25bFCD323f82a7d1c95E4Cf3807B8831270"

/-- The configuration used in the retry tests: `gasPriceMultiplier = 5`,
`transactionRetryLimit = 2`, `transactionRetryGasPriceMultiplier = 0.1`,
and the test's mock oracle account. -/
def exampleConfig : TransactionManagerConfig :=
  ⟨5, 2, 1/10, mockOracleAccount⟩

/-- A sender oracle whose every attempt rejects with `"error"`, as in the
exhaustion tests. -/
def failAttempts : Nat → Except String Nat :=
  fun _ => Except.error "error"

/-- A sender oracle failing on attempts 0 and 1 and succeeding on attempt 2
with receipt `7`, as in the retry-then-succeed tests. -/
def succAt2 : Nat → Except String Nat
  | 0 => Except.error "error"
  | 1 => Except.error "error"
  | _ + 2 => Except.ok 7

/-- Connection configuration with contractkit's default gas inflation factor
`1.3`, as obtained by the tests from a freshly constructed connection. -/
def exampleConn : ConnectionConfig := ⟨13/10⟩

/-- Transaction request whose gas estimation succeeds with `1234`, as in the
fallback-gas tests. -/
def exampleTx : TxRequest String := ⟨Except.ok 1234, Except.ok ()⟩

/-- Transaction request whose gas estimation fails but whose dry-run call
succeeds. -/
def exampleTxEstFail : TxRequest String :=
  ⟨Except.error "intentional error!", Except.ok ()⟩

/-- Transaction request whose gas estimation and dry-run call both fail. -/
def exampleTxBothFail : TxRequest String :=
  ⟨Except.error "intentional error!", Except.error "revert"⟩

/-- A submission primitive that always confirms with receipt `0`. -/
def exampleSubmit : SubmittedParams → Except String Nat :=
  fun _ => Except.ok 0

/-- The from-address used in the fallback-gas tests. -/
def exampleFrom : String := "0xf000000000000000000000000000000000000000"

/-- The first sender invocation of the exhaustion scenario of the tests. -/
def exampleCall : SendCall Unit Unit :=
  ⟨(), 10, mockOracleAccount, (), none⟩

/-- Escalating `10` by the multiplier `0.1` yields `11`. -/
theorem nextGasPrice_tenth_ten : nextGasPrice ((10 : Rat))⁻¹ 10 = 11 := by
  norm_num [nextGasPrice, Int.toNat_ofNat]

/-- Escalating `11` by the multiplier `0.1` yields `12`. -/
theorem nextGasPrice_tenth_eleven : nextGasPrice ((10 : Rat))⁻¹ 11 = 12 := by
  norm_num [nextGasPrice, Int.toNat_ofNat]

/-- A zero multiplier leaves the gas price unchanged. -/
theorem nextGasPrice_zero (g : Nat) : nextGasPrice 0 g = g := by
  simp [nextGasPrice]

/-- If the first `n` attempts starting at index `k` all fail, the loop with
`n` retries left performs exactly `n + 1` sender invocations (whatever the
last attempt does). -/
theorem retryLoop_length (tx : T) (acct : String) (hook : H) (mult : Rat)
    (attempts : Nat → Except E R) :
    ∀ n k g, (∀ j, j < n → ∃ e, attempts (k + j) = Except.error e) →
      (retryLoop tx acct hook mult attempts n k g).2.length = n + 1 := by
  intro n
  induction n with
  | zero =>
    intro k g _
    simp [retryLoop]
  | succ m ih =>
    intro k g hf
    obtain ⟨e, he⟩ := hf 0 (Nat.succ_pos m)
    rw [Nat.add_zero] at he
    have ihlen := ih (k + 1) (nextGasPrice mult g) (fun j hj => by
      have h := hf (j + 1) (by omega)
      rw [show k + (j + 1) = k + 1 + j by omega] at h
      exact h)
    simp [retryLoop, he, ihlen]

/-- If the first `n` attempts starting at index `k` all fail, the loop's
result is exactly the outcome of attempt `k + n`, the last one within the
budget. -/
theorem retryLoop_result (tx : T) (acct : String) (hook : H) (mult : Rat)
    (attempts : Nat → Except E R) :
    ∀ n k g, (∀ j, j < n → ∃ e, attempts (k + j) = Except.error e) →
      (retryLoop tx acct hook mult attempts n k g).1 = attempts (k + n) := by
  intro n
  induction n with
  | zero =>
    intro k g _
    simp [retryLoop]
  | succ m ih =>
    intro k g hf
    obtain ⟨e, he⟩ := hf 0 (Nat.succ_pos m)
    rw [Nat.add_zero] at he
    have ihres := ih (k + 1) (nextGasPrice mult g) (fun j hj => by
      have h := hf (j + 1) (by omega)
      rw [show k + (j + 1) = k + 1 + j by omega] at h
      exact h)
    rw [show k + (m + 1) = k + 1 + m by omega]
    simp [retryLoop, he, ihres]

/-- If attempts `k, …, k + j - 1` fail and attempt `k + j` succeeds with
receipt `r`, where `j` is within the remaining budget `n`, the loop returns
that receipt and stops after invocation `j + 1`. -/
theorem retryLoop_success (tx : T) (acct : String) (hook : H) (mult : Rat)
    (attempts : Nat → Except E R) :
    ∀ n k g j r, j ≤ n →
      (∀ i, i < j → ∃ e, attempts (k + i) = Except.error e) →
      attempts (k + j) = Except.ok r →
      (retryLoop tx acct hook mult attempts n k g).1 = Except.ok r ∧
        (retryLoop tx acct hook mult attempts n k g).2.length = j + 1 := by
  intro n
  induction n with
  | zero =>
    intro k g j r hj hb hs
    have hj0 : j = 0 := Nat.le_zero.mp hj
    subst hj0
    rw [Nat.add_zero] at hs
    simp [retryLoop, hs]
  | succ m ih =>
    intro k g j r hj hb hs
    cases j with
    | zero =>
      rw [Nat.add_zero] at hs
      simp [retryLoop, hs]
    | succ i =>
      obtain ⟨e, he⟩ := hb 0 (Nat.succ_pos i)
      rw [Nat.add_zero] at he
      have ihres := ih (k + 1) (nextGasPrice mult g) i r (by omega)
        (fun i' hi' => by
          have h := hb (i' + 1) (by omega)
          rw [show k + (i' + 1) = k + 1 + i' by omega] at h
          exact h)
        (by rw [show k + 1 + i = k + (i + 1) by omega]; exact hs)
      simp [retryLoop, he, ihres.1, ihres.2]

/-- Every invocation recorded by the loop carries the transaction, the
from-address and the hook it was started with, and no fallback gas. -/
theorem retryLoop_mem (tx : T) (acct : String) (hook : H) (mult : Rat)
    (attempts : Nat → Except E R) :
    ∀ n k g c, c ∈ (retryLoop tx acct hook mult attempts n k g).2 →
      c.tx = tx ∧ c.fromAddress = acct ∧ c.metricAction = hook ∧
        c.fallbackGas = none := by
  intro n
  induction n with
  | zero =>
    intro k g c hc
    simp [retryLoop] at hc
    subst hc
    exact ⟨rfl, rfl, rfl, rfl⟩
  | succ m ih =>
    intro k g c hc
    cases hak : attempts k with
    | ok r =>
      simp [retryLoop, hak] at hc
      subst hc
      exact ⟨rfl, rfl, rfl, rfl⟩
    | error e =>
      simp [retryLoop, hak] at hc
      rcases hc with hc | hc
      · subst hc
        exact ⟨rfl, rfl, rfl, rfl⟩
      · exact ih (k + 1) (nextGasPrice mult g) c hc

/-- The gas price of the `i`-th invocation recorded by the loop is the
`i`-th iterate of the escalation step applied to the starting gas price. -/
theorem retryLoop_gasPrice (tx : T) (acct : String) (hook : H) (mult : Rat)
    (attempts : Nat → Except E R) :
    ∀ n k g i c, (retryLoop tx acct hook mult attempts n k g).2[i]? = some c →
      c.gasPrice = (nextGasPrice mult)^[i] g := by
  intro n
  induction n with
  | zero =>
    intro k g i c hc
    cases i with
    | zero =>
      simp [retryLoop] at hc
      subst hc
      rfl
    | succ i' =>
      simp [retryLoop] at hc
  | succ m ih =>
    intro k g i c hc
    cases hak : attempts k with
    | ok r =>
      rw [retryLoop] at hc
      simp [hak] at hc
      cases i with
      | zero =>
        simp at hc
        subst hc
        rfl
      | succ i' => simp at hc
    | error e =>
      rw [retryLoop] at hc
      simp [hak] at hc
      cases i with
      | zero =>
        simp at hc
        subst hc
        rfl
      | succ i' =>
        simp at hc
        rw [Function.iterate_succ_apply]
        exact ih (k + 1) (nextGasPrice mult g) i' c hc

/-- The full invocation trace of the exhaustion scenario of the tests:
three invocations at gas prices `10`, `11`, `12`. -/
theorem exampleTrace_eq :
    (sendWithRetries () 10 exampleConfig () failAttempts).2
      = [⟨(), 10, mockOracleAccount, (), none⟩,
         ⟨(), 11, mockOracleAccount, (), none⟩,
         ⟨(), 12, mockOracleAccount, (), none⟩] := by
  simp [sendWithRetries, exampleConfig, retryLoop, failAttempts,
    nextGasPrice_tenth_ten, nextGasPrice_tenth_eleven]

/-- Claim C1: in one engine invocation, if every attempt within the budget
fails, the sender is invoked exactly `transactionRetryLimit + 1` times; if
some attempt succeeds (all earlier ones having failed), the number of
invocations equals that attempt's 1-based index `j + 1`, which is at most
`transactionRetryLimit + 1`. -/
theorem sendWithRetries_attempt_count :
    (∀ (T H E R : Type) (tx : T) (hook : H) (cfg : TransactionManagerConfig)
        (attempts : Nat → Except E R) (g0 : Nat),
      (∀ j, j ≤ cfg.transactionRetryLimit → ∃ e, attempts j = Except.error e) →
      (sendWithRetries tx g0 cfg hook attempts).2.length
        = cfg.transactionRetryLimit + 1)
    ∧ ∀ (T H E R : Type) (tx : T) (hook : H) (cfg : TransactionManagerConfig)
        (attempts : Nat → Except E R) (g0 j : Nat) (r : R),
      j ≤ cfg.transactionRetryLimit →
      (∀ i, i < j → ∃ e, attempts i = Except.error e) →
      attempts j = Except.ok r →
      (sendWithRetries tx g0 cfg hook attempts).2.length = j + 1
        ∧ j + 1 ≤ cfg.transactionRetryLimit + 1 := by
  constructor
  · intro T H E R tx hook cfg attempts g0 hf
    exact retryLoop_length tx cfg.oracleAccount hook
      cfg.transactionRetryGasPriceMultiplier attempts
      cfg.transactionRetryLimit 0 g0
      (fun j hj => by simpa using hf j (by omega))
  · intro T H E R tx hook cfg attempts g0 j r hj hb hs
    have h := retryLoop_success tx cfg.oracleAccount hook
      cfg.transactionRetryGasPriceMultiplier attempts
      cfg.transactionRetryLimit 0 g0 j r hj
      (fun i hi => by simpa using hb i hi) (by simpa using hs)
    exact ⟨h.2, by omega⟩

/-- Claim C1, witness: in the exhaustion scenario of the tests the sender
is invoked `transactionRetryLimit + 1 = 3` times. -/
theorem sendWithRetries_attempt_count_witness :
    (sendWithRetries () 10 exampleConfig () failAttempts).2.length
      = exampleConfig.transactionRetryLimit + 1 :=
  sendWithRetries_attempt_count.1 Unit Unit String Nat () () exampleConfig
    failAttempts 10 (fun _ _ => ⟨"error", rfl⟩)

/-- Claim C2: the gas price of the `i`-th sender invocation (0-based) is
obtained by `i` applications of the escalation step
`g ↦ g + ⌊g × transactionRetryGasPriceMultiplier⌋` to the initial gas
price; concretely, with initial gas price `10` and multiplier `0.1` the
attempts observe `10, 11, 12` in order; and with multiplier `0` every
attempt observes the initial gas price. -/
theorem sendWithRetries_gas_price_escalation :
    (∀ (T H E R : Type) (tx : T) (hook : H) (cfg : TransactionManagerConfig)
        (attempts : Nat → Except E R) (g0 i : Nat) (c : SendCall T H),
      (sendWithRetries tx g0 cfg hook attempts).2[i]? = some c →
      c.gasPrice = (nextGasPrice cfg.transactionRetryGasPriceMultiplier)^[i] g0)
    ∧ ((sendWithRetries () 10 exampleConfig () failAttempts).2.map
        SendCall.gasPrice = [10, 11, 12])
    ∧ ∀ (T H E R : Type) (tx : T) (hook : H) (cfg : TransactionManagerConfig)
        (attempts : Nat → Except E R) (g0 i : Nat) (c : SendCall T H),
      cfg.transactionRetryGasPriceMultiplier = 0 →
      (sendWithRetries tx g0 cfg hook attempts).2[i]? = some c →
      c.gasPrice = g0 := by
  refine ⟨?_, ?_, ?_⟩
  · intro T H E R tx hook cfg attempts g0 i c hc
    exact retryLoop_gasPrice tx cfg.oracleAccount hook
      cfg.transactionRetryGasPriceMultiplier attempts
      cfg.transactionRetryLimit 0 g0 i c hc
  · rw [exampleTrace_eq]
    rfl
  · intro T H E R tx hook cfg attempts g0 i c h0 hc
    have h := retryLoop_gasPrice tx cfg.oracleAccount hook
      cfg.transactionRetryGasPriceMultiplier attempts
      cfg.transactionRetryLimit 0 g0 i c hc
    rw [h, h0]
    exact Function.iterate_fixed (nextGasPrice_zero g0) i

/-- Claim C2, witness: in the exhaustion scenario of the tests the second
invocation (index 1) observes gas price `11`, one escalation step from the
initial `10`. -/
theorem sendWithRetries_gas_price_escalation_witness :
    (⟨(), 11, mockOracleAccount, (), none⟩ : SendCall Unit Unit).gasPrice
      = (nextGasPrice exampleConfig.transactionRetryGasPriceMultiplier)^[1] 10 :=
  sendWithRetries_gas_price_escalation.1 Unit Unit String Nat () ()
    exampleConfig failAttempts 10 1 ⟨(), 11, mockOracleAccount, (), none⟩
    (by rw [exampleTrace_eq]; rfl)

/-- Claim C3: when every attempt within the budget fails, the engine
rejects with exactly the error produced by the final attempt. -/
theorem sendWithRetries_exhaustion_last_error (T H E R : Type) (tx : T)
    (hook : H) (cfg : TransactionManagerConfig) (attempts : Nat → Except E R)
    (g0 : Nat) (errs : Nat → E)
    (hf : ∀ j, j ≤ cfg.transactionRetryLimit →
      attempts j = Except.error (errs j)) :
    (sendWithRetries tx g0 cfg hook attempts).1
      = Except.error (errs cfg.transactionRetryLimit) := by
  have h : (sendWithRetries tx g0 cfg hook attempts).1
      = attempts (0 + cfg.transactionRetryLimit) :=
    retryLoop_result tx cfg.oracleAccount hook
      cfg.transactionRetryGasPriceMultiplier attempts
      cfg.transactionRetryLimit 0 g0
      (fun j hj => ⟨errs j, by simpa using hf j (by omega)⟩)
  rw [h, Nat.zero_add, hf cfg.transactionRetryLimit (Nat.le_refl _)]

/-- Claim C3, witness: in the exhaustion scenario of the tests the engine
rejects with the string `"error"` of the final attempt. -/
theorem sendWithRetries_exhaustion_last_error_witness :
    (sendWithRetries () 10 exampleConfig () failAttempts).1
      = Except.error "error" :=
  sendWithRetries_exhaustion_last_error Unit Unit String Nat () ()
    exampleConfig failAttempts 10 (fun _ => "error") (fun _ _ => rfl)

/-- Claim C4: if the `j`-th attempt (0-based, earlier ones having failed)
resolves with a receipt, the engine resolves with that same receipt and
performs no further invocations: the trace stops at length `j + 1`. -/
theorem sendWithRetries_success_receipt (T H E R : Type) (tx : T) (hook : H)
    (cfg : TransactionManagerConfig) (attempts : Nat → Except E R)
    (g0 j : Nat) (r : R) (hj : j ≤ cfg.transactionRetryLimit)
    (hb : ∀ i, i < j → ∃ e, attempts i = Except.error e)
    (hs : attempts j = Except.ok r) :
    (sendWithRetries tx g0 cfg hook attempts).1 = Except.ok r ∧
      (sendWithRetries tx g0 cfg hook attempts).2.length = j + 1 :=
  retryLoop_success tx cfg.oracleAccount hook
    cfg.transactionRetryGasPriceMultiplier attempts
    cfg.transactionRetryLimit 0 g0 j r hj
    (fun i hi => by simpa using hb i hi) (by simpa using hs)

/-- Claim C4, witness: in the retry-then-succeed scenario of the tests the
engine resolves with receipt `7` of the third attempt after exactly three
invocations. -/
theorem sendWithRetries_success_receipt_witness :
    (sendWithRetries () 10 exampleConfig () succAt2).1 = Except.ok 7 ∧
      (sendWithRetries () 10 exampleConfig () succAt2).2.length = 2 + 1 :=
  sendWithRetries_success_receipt Unit Unit String Nat () () exampleConfig
    succAt2 10 2 7 (Nat.le_refl 2)
    (fun i hi => ⟨"error", by interval_cases i <;> rfl⟩) rfl

/-- Claim C9: every sender invocation of one engine call carries the same
transaction, the config's oracle account as from-address, and the same
instrumentation hook; only the gas price varies. -/
theorem sendWithRetries_frame_immutable (T H E R : Type) (tx : T) (hook : H)
    (cfg : TransactionManagerConfig) (attempts : Nat → Except E R)
    (g0 : Nat) (c : SendCall T H)
    (hc : c ∈ (sendWithRetries tx g0 cfg hook attempts).2) :
    c.tx = tx ∧ c.fromAddress = cfg.oracleAccount ∧ c.metricAction = hook := by
  have h := retryLoop_mem tx cfg.oracleAccount hook
    cfg.transactionRetryGasPriceMultiplier attempts
    cfg.transactionRetryLimit 0 g0 c hc
  exact ⟨h.1, h.2.1, h.2.2.1⟩

/-- Claim C9, witness: the first invocation of the exhaustion scenario of
the tests carries the transaction, the mock oracle account and the hook. -/
theorem sendWithRetries_frame_immutable_witness :
    exampleCall.tx = ()
      ∧ exampleCall.fromAddress = exampleConfig.oracleAccount
      ∧ exampleCall.metricAction = () :=
  sendWithRetries_frame_immutable Unit Unit String Nat () () exampleConfig
    failAttempts 10 exampleCall
    (by rw [exampleTrace_eq]; exact List.mem_cons_self _ _)

/-- Claim C10: the retry scheduler supplies no fallback-gas argument to the
sender, whose interface accepts one: every recorded invocation has
`fallbackGas = none`. -/
theorem sendWithRetries_no_fallback_gas (T H E R : Type) (tx : T) (hook : H)
    (cfg : TransactionManagerConfig) (attempts : Nat → Except E R)
    (g0 : Nat) (c : SendCall T H)
    (hc : c ∈ (sendWithRetries tx g0 cfg hook attempts).2) :
    c.fallbackGas = none :=
  (retryLoop_mem tx cfg.oracleAccount hook
    cfg.transactionRetryGasPriceMultiplier attempts
    cfg.transactionRetryLimit 0 g0 c hc).2.2.2

/-- Claim C10, witness: the first invocation of the exhaustion scenario of
the tests carries no fallback gas. -/
theorem sendWithRetries_no_fallback_gas_witness :
    exampleCall.fallbackGas = none :=
  sendWithRetries_no_fallback_gas Unit Unit String Nat () () exampleConfig
    failAttempts 10 exampleCall
    (by rw [exampleTrace_eq]; exact List.mem_cons_self _ _)

/-- Claim C5: when dynamic gas estimation succeeds with `e`, the single
submission carries gas limit `⌊e × F⌋` for the inflation factor `F` in
effect, and the fallback gas plays no role: the sender's behavior is
independent of the fallback-gas argument. -/
theorem send_gas_limit_inflates_estimate (E R : Type)
    (conn : ConnectionConfig) (submit : SubmittedParams → Except E R)
    (tx : TxRequest E) (gp : Nat) (a : String) (fb : Option Nat) (e : Nat)
    (hest : tx.estimateGas = Except.ok e) :
    ((send conn submit tx gp a fb).2.map SubmittedParams.gas
        = [some (⌊conn.gasInflationFactor * (e : Rat)⌋).toNat])
      ∧ ∀ fbAlt : Option Nat,
        send conn submit tx gp a fb = send conn submit tx gp a fbAlt := by
  constructor
  · simp [send, estimate, hest]
  · intro fbAlt
    simp [send, estimate, hest]

/-- Claim C5, witness: with the test's estimate `1234` and the connection's
inflation factor `1.3`, the submission carries `⌊1234 × 1.3⌋` regardless of
the fallback gas `4321`. -/
theorem send_gas_limit_inflates_estimate_witness :
    ((send exampleConn exampleSubmit exampleTx 123 exampleFrom
          (some 4321)).2.map SubmittedParams.gas
        = [some (⌊exampleConn.gasInflationFactor * ((1234 : Nat) : Rat)⌋).toNat])
      ∧ ∀ fbAlt : Option Nat,
        send exampleConn exampleSubmit exampleTx 123 exampleFrom (some 4321)
          = send exampleConn exampleSubmit exampleTx 123 exampleFrom fbAlt :=
  send_gas_limit_inflates_estimate String Nat exampleConn exampleSubmit
    exampleTx 123 exampleFrom (some 4321) 1234 rfl

/-- Claim C6, counterexample: in the fallback-gas test scenario the
estimate is `1234`, the manager config has `gasPriceMultiplier = 5`, and
the connection's inflation factor is `1.3`; the submitted gas limit is
`⌊1234 × 1.3⌋ = 1604`, while `⌊1234 × 5⌋ = 6170`, so the inflation factor
is not `config.gasPriceMultiplier`. -/
theorem send_gas_limit_multiplier_counterexample :
    ((send exampleConn exampleSubmit exampleTx 123 exampleFrom
        (some 4321)).2.map SubmittedParams.gas = [some 1604])
      ∧ (⌊exampleConfig.gasPriceMultiplier * ((1234 : Nat) : Rat)⌋).toNat = 6170
      ∧ (1604 : Nat) ≠ 6170 := by
  refine ⟨?_, ?_, by decide⟩
  · simp [send, estimate, exampleTx, exampleConn]
    norm_num
    decide
  · simp [exampleConfig]
    norm_num
    decide

/-- Claim C6, amended: the inflation factor applied to a successful
estimate is the connection's configured `gasInflationFactor`, not the
manager config's `gasPriceMultiplier`: the single submission carries gas
limit `⌊e × conn.gasInflationFactor⌋`. -/
theorem send_inflation_is_connection_factor (E R : Type)
    (conn : ConnectionConfig) (submit : SubmittedParams → Except E R)
    (tx : TxRequest E) (gp : Nat) (a : String) (fb : Option Nat) (e : Nat)
    (hest : tx.estimateGas = Except.ok e) :
    (send conn submit tx gp a fb).2
      = [⟨a, some (⌊conn.gasInflationFactor * (e : Rat)⌋).toNat, gp⟩] := by
  simp [send, estimate, hest]

/-- Claim C6 (amended), witness: in the fallback-gas test scenario the one
submission uses the connection's inflation factor. -/
theorem send_inflation_is_connection_factor_witness :
    (send exampleConn exampleSubmit exampleTx 123 exampleFrom
        (some 4321)).2
      = [⟨exampleFrom,
          some (⌊exampleConn.gasInflationFactor * ((1234 : Nat) : Rat)⌋).toNat,
          123⟩] :=
  send_inflation_is_connection_factor String Nat exampleConn exampleSubmit
    exampleTx 123 exampleFrom (some 4321) 1234 rfl

/-- Claim C7: when dynamic gas estimation fails but the read-only dry-run
call succeeds, the transaction is still submitted, once, with gas limit
exactly the supplied fallback gas (no inflation applied). -/
theorem send_fallback_gas_on_estimation_failure (E R : Type)
    (conn : ConnectionConfig) (submit : SubmittedParams → Except E R)
    (tx : TxRequest E) (gp : Nat) (a : String) (fb : Option Nat) (err : E)
    (hest : tx.estimateGas = Except.error err)
    (hcall : tx.dryRunCall = Except.ok ()) :
    (send conn submit tx gp a fb).2.map SubmittedParams.gas = [fb] := by
  simp [send, estimate, hest, hcall]

/-- Claim C7, witness: with a failing estimate, a succeeding dry run and
fallback gas `4321`, the one submission carries gas `4321` verbatim. -/
theorem send_fallback_gas_on_estimation_failure_witness :
    (send exampleConn exampleSubmit exampleTxEstFail 123 exampleFrom
        (some 4321)).2.map SubmittedParams.gas = [some 4321] :=
  send_fallback_gas_on_estimation_failure String Nat exampleConn
    exampleSubmit exampleTxEstFail 123 exampleFrom (some 4321)
    "intentional error!" rfl rfl

/-- Claim C8: when dynamic gas estimation and the dry-run call both fail,
nothing is submitted and the original estimation failure is propagated
unchanged. -/
theorem send_no_submission_on_double_failure (E R : Type)
    (conn : ConnectionConfig) (submit : SubmittedParams → Except E R)
    (tx : TxRequest E) (gp : Nat) (a : String) (fb : Option Nat)
    (err errCall : E)
    (hest : tx.estimateGas = Except.error err)
    (hcall : tx.dryRunCall = Except.error errCall) :
    send conn submit tx gp a fb = (Except.error err, []) := by
  simp [send, estimate, hest, hcall]

/-- Claim C8, witness: with both the estimate and the dry run failing, no
submission happens and the estimation error `"intentional error!"` is the
result. -/
theorem send_no_submission_on_double_failure_witness :
    send exampleConn exampleSubmit exampleTxBothFail 123 exampleFrom
        (some 4321)
      = (Except.error "intentional error!", []) :=
  send_no_submission_on_double_failure String Nat exampleConn exampleSubmit
    exampleTxBothFail 123 exampleFrom (some 4321) "intentional error!"
    "revert" rfl rfl

end CeloOracle
